import Mathlib

/-!
Verification of the pytest-dymo-label plugin (`pytest_dymo_label/plugin.py`)
against its natural-language specification.

Strings are modelled as `List Char`; Python `str.replace` is modelled by
`replaceAll` (leftmost, non-overlapping occurrence replacement); the XML
documents handled by lxml are modelled by the tree type `Elem`; HTTP and
filesystem effects are supplied by an `Env` of oracles, and the session-end
hook `pytest_sessionfinish` is embedded as a pure function from those inputs
to a `RunResult` recording the final state, the appended error records and
the ordered trace of externally visible events.
-/

/-- Strings of the Python program, modelled as lists of characters. -/
abbrev Str := List Char

/-- Coercion from Lean string literals to the `Str` model. -/
def str (s : String) : Str := s.toList

/-- The apostrophe character, used in several diagnostic messages. -/
def chQuote : Char := Char.ofNat 39

/-- The scan of Python `s.replace(old, new)`, with explicit fuel so that the
recursion is structural (the fuel is always at least the length of the
remaining text, so the `0, _ :: _` branch is never reached). -/
def replaceGo (old new : Str) : Nat → Str → Str
  | _, [] => []
  | 0, _ :: _ => []
  | fuel + 1, c :: rest =>
    if old ≠ [] ∧ (c :: rest).take old.length = old then
      new ++ replaceGo old new fuel (rest.drop (old.length - 1))
    else
      c :: replaceGo old new fuel rest

/-- Model of Python `s.replace(old, new)`: scan left to right, replacing each
leftmost non-overlapping occurrence of `old` by `new`.  For `old = []` it is
the identity (the plugin only ever replaces non-empty tokens). -/
def replaceAll (old new s : Str) : Str := replaceGo old new s.length s

/-- Whether `old` occurs as a contiguous substring of `s`. -/
def subFound (old : Str) : Str → Bool
  | [] => old.isEmpty
  | c :: rest => (List.take old.length (c :: rest) == old) || subFound old rest

/-- The pieces of `s` between the leftmost non-overlapping occurrences of
`old`, in order; `replaceAll old new s` is exactly these pieces re-joined
with `new`, and the original `s` is these pieces re-joined with `old`. -/
def splitSub (old : Str) : Str → List Str
  | [] => [[]]
  | c :: rest =>
    if old ≠ [] ∧ (c :: rest).take old.length = old then
      [] :: splitSub old ((c :: rest).drop old.length)
    else
      List.modifyHead (fun p => c :: p) (splitSub old rest)
termination_by s => s.length
decreasing_by
  · simp only [List.length_drop]
    have : 0 < old.length := List.length_pos.mpr (by tauto)
    simp [List.length_cons]
    omega
  · simp [List.length_cons]

theorem splitSub_ne_nil (old : Str) (s : Str) : splitSub old s ≠ [] := by
  induction s using splitSub.induct old with
  | case1 => simp [splitSub]
  | case2 c rest h ih =>
    rw [splitSub, if_pos h]
    simp
  | case3 c rest h ih =>
    rw [splitSub, if_neg h]
    cases hs : splitSub old rest with
    | nil => exact absurd hs ih
    | cons p ps => simp

/-- Helper: `intercalate` over a cons of a cons. -/
theorem intercalate_cons_cons (sep : Str) (p q : Str) (ps : List Str) :
    List.intercalate sep (p :: q :: ps) = p ++ sep ++ List.intercalate sep (q :: ps) := by
  simp [List.intercalate, List.intersperse]

theorem intercalate_single (sep : Str) (p : Str) :
    List.intercalate sep [p] = p := by
  simp [List.intercalate, List.intersperse]

/-- Re-joining the split pieces with the separator recovers the string. -/
theorem intercalate_splitSub (old : Str) (h : old ≠ []) :
    ∀ s : Str, List.intercalate old (splitSub old s) = s := by
  intro s
  induction s using splitSub.induct old with
  | case1 => simp [splitSub, intercalate_single]
  | case2 c rest hc ih =>
    rw [splitSub, if_pos hc]
    cases hs : splitSub old ((c :: rest).drop old.length) with
    | nil => exact absurd hs (splitSub_ne_nil old _)
    | cons q qs =>
      rw [intercalate_cons_cons]
      rw [hs] at ih
      simp only [List.nil_append]
      rw [ih]
      have := hc.2
      conv_rhs => rw [← List.take_append_drop old.length (c :: rest)]
      rw [this]
  | case3 c rest hc ih =>
    rw [splitSub, if_neg hc]
    cases hs : splitSub old rest with
    | nil => exact absurd hs (splitSub_ne_nil old rest)
    | cons p ps =>
      rw [hs] at ih
      simp only [List.modifyHead_cons]
      cases ps with
      | nil =>
        simp only [intercalate_single] at ih ⊢
        rw [ih]
      | cons q qs =>
        rw [intercalate_cons_cons] at ih ⊢
        simp only [List.cons_append, List.append_assoc] at ih ⊢
        rw [ih]

theorem intercalate_nil_cons (sep : Str) (l : List Str) (h : l ≠ []) :
    List.intercalate sep ([] :: l) = sep ++ List.intercalate sep l := by
  cases l with
  | nil => exact absurd rfl h
  | cons q qs => rw [intercalate_cons_cons]; simp

theorem intercalate_modifyHead_cons (sep : Str) (c : Char) (l : List Str)
    (h : l ≠ []) :
    List.intercalate sep (List.modifyHead (fun p => c :: p) l) =
      c :: List.intercalate sep l := by
  cases l with
  | nil => exact absurd rfl h
  | cons p ps =>
    simp only [List.modifyHead_cons]
    cases ps with
    | nil => simp [intercalate_single]
    | cons q qs => rw [intercalate_cons_cons, intercalate_cons_cons]; simp

theorem replaceGo_spec (old new : Str) :
    ∀ s : Str, ∀ fuel : Nat, s.length ≤ fuel →
      replaceGo old new fuel s = List.intercalate new (splitSub old s) := by
  intro s
  induction s using splitSub.induct old with
  | case1 =>
    intro fuel _
    cases fuel <;> simp [replaceGo, splitSub, intercalate_single]
  | case2 c rest hc ih =>
    intro fuel hf
    have hpos : 0 < old.length := List.length_pos.mpr hc.1
    match fuel with
    | 0 => simp at hf
    | f + 1 =>
      rw [replaceGo, if_pos hc]
      have hdrop : rest.drop (old.length - 1) = (c :: rest).drop old.length := by
        conv_rhs => rw [show old.length = (old.length - 1) + 1 by omega]
        rw [List.drop_succ_cons]
      have hlen : ((c :: rest).drop old.length).length ≤ f := by
        rw [List.length_drop]
        simp only [List.length_cons] at hf ⊢
        omega
      rw [hdrop, ih f hlen, splitSub, if_pos hc,
        intercalate_nil_cons new _ (splitSub_ne_nil old _)]
  | case3 c rest hc ih =>
    intro fuel hf
    match fuel with
    | 0 => simp at hf
    | f + 1 =>
      rw [replaceGo, if_neg hc,
        ih f (by simp only [List.length_cons] at hf; omega), splitSub, if_neg hc,
        intercalate_modifyHead_cons new c _ (splitSub_ne_nil old rest)]

/-- `replaceAll` is re-joining the split pieces with the new string. -/
theorem replaceAll_eq_intercalate_splitSub (old new : Str) :
    ∀ s : Str, replaceAll old new s = List.intercalate new (splitSub old s) :=
  fun s => replaceGo_spec old new s s.length le_rfl

/-- The head piece of `splitSub old s` extends to the whole of `s`. -/
theorem splitSub_head_app (old : Str) (h : old ≠ []) (s p : Str) (ps : List Str)
    (hs : splitSub old s = p :: ps) : ∃ t, s = p ++ t := by
  have hr := intercalate_splitSub old h s
  rw [hs] at hr
  cases ps with
  | nil =>
    rw [intercalate_single] at hr
    exact ⟨[], by simp [hr]⟩
  | cons q qs =>
    rw [intercalate_cons_cons] at hr
    exact ⟨old ++ List.intercalate old (q :: qs), by rw [← hr]; simp⟩

/-- No piece produced by `splitSub` contains an occurrence of `old`: every
leftmost non-overlapping occurrence has been split out. -/
theorem splitSub_pieces_free (old : Str) (h : old ≠ []) :
    ∀ s : Str, ∀ p ∈ splitSub old s, subFound old p = false := by
  intro s
  induction s using splitSub.induct old with
  | case1 =>
    intro p hp
    simp only [splitSub, List.mem_singleton] at hp
    subst hp
    simp [subFound, List.isEmpty_iff, h]
  | case2 c rest hc ih =>
    intro p hp
    rw [splitSub, if_pos hc] at hp
    rcases List.mem_cons.mp hp with hp | hp
    · subst hp
      simp [subFound, List.isEmpty_iff, h]
    · exact ih p hp
  | case3 c rest hc ih =>
    intro p hp
    rw [splitSub, if_neg hc] at hp
    cases hs : splitSub old rest with
    | nil => exact absurd hs (splitSub_ne_nil old rest)
    | cons p0 ps =>
      rw [hs] at hp
      simp only [List.modifyHead_cons] at hp
      rcases List.mem_cons.mp hp with hp | hp
      · subst hp
        have hfree : subFound old p0 = false := ih p0 (by rw [hs]; exact List.mem_cons_self _ _)
        rw [subFound, hfree, Bool.or_false, beq_eq_false_iff_ne]
        intro heq
        have hle : old.length ≤ (c :: p0).length := by
          have := congrArg List.length heq
          rw [List.length_take] at this
          omega
        obtain ⟨t, ht⟩ := splitSub_head_app old h rest p0 ps hs
        have : (c :: rest).take old.length = old := by
          rw [ht, ← List.cons_append, List.take_append_of_le_length hle, heq]
        exact hc ⟨h, this⟩
      · exact ih p (by rw [hs]; exact List.mem_cons_of_mem _ hp)

/-- When `old` does not occur in `s`, the split is trivial. -/
theorem splitSub_of_not_subFound (old : Str) :
    ∀ s : Str, subFound old s = false → splitSub old s = [s] := by
  intro s
  induction s using splitSub.induct old with
  | case1 => intro _; rw [splitSub]
  | case2 c rest hc ih =>
    intro hf
    rw [subFound] at hf
    rw [hc.2] at hf
    simp at hf
  | case3 c rest hc ih =>
    intro hf
    rw [subFound, Bool.or_eq_false_iff] at hf
    rw [splitSub, if_neg hc, ih hf.2]
    rfl

/-- When `old` does not occur in `s`, replacement is the identity (substituting
a token that is absent from the template text is a no-op). -/
theorem replaceAll_of_not_subFound (old new : Str) (h : old ≠ []) :
    ∀ s : Str, subFound old s = false → replaceAll old new s = s := by
  intro s hf
  rw [replaceAll_eq_intercalate_splitSub, splitSub_of_not_subFound old s hf,
    intercalate_single]

/-! ## Run metadata and placeholder substitution (plugin.py lines 142-158) -/

/-- The `session.label_data` dictionary entries that the plugin reads,
each `none` when the corresponding key is absent. -/
structure LabelData where
  serial_number : Option Str
  model_number : Option Str
  firmware_version : Option Str
  first_failed_test : Option Str
deriving DecidableEq

/-- Default value substituted for an absent metadata field. -/
def NA : Str := str "N/A"

def tokSerialNumber : Str := str "[SerialNumber]"

def tokModelNumber : Str := str "[ModelNumber]"

def tokFirmwareVersion : Str := str "[FirmwareVersion]"

def tokManufacturingDate : Str := str "[ManufacturingDate]"

def tokTestStatus : Str := str "[TestStatus]"

def tokBarcodeSN : Str := str "[BarcodeSN]"

/-- The six placeholder tokens, in the order the plugin replaces them. -/
def placeholderTokens : List Str :=
  [tokSerialNumber, tokModelNumber, tokFirmwareVersion,
   tokManufacturingDate, tokTestStatus, tokBarcodeSN]

/-- The (token, replacement value) pairs of plugin.py lines 143-148. -/
def placeholderMap (ld : LabelData) (today status : Str) : List (Str × Str) :=
  [(tokSerialNumber, ld.serial_number.getD NA),
   (tokModelNumber, ld.model_number.getD NA),
   (tokFirmwareVersion, ld.firmware_version.getD NA),
   (tokManufacturingDate, today),
   (tokTestStatus, status),
   (tokBarcodeSN, ld.serial_number.getD NA)]

/-- The placeholder substitution of plugin.py lines 143-148: six sequential
`str.replace` calls on the raw template text. -/
def substitute_placeholders (t : Str) (ld : LabelData) (today status : Str) : Str :=
  let t1 := replaceAll tokSerialNumber (ld.serial_number.getD NA) t
  let t2 := replaceAll tokModelNumber (ld.model_number.getD NA) t1
  let t3 := replaceAll tokFirmwareVersion (ld.firmware_version.getD NA) t2
  let t4 := replaceAll tokManufacturingDate today t3
  let t5 := replaceAll tokTestStatus status t4
  replaceAll tokBarcodeSN (ld.serial_number.getD NA) t5

/-- The newline character joining the QR payload lines. -/
def nlChar : Char := Char.ofNat 10

/-- The QR payload f-string of plugin.py lines 153-158, built exactly as the
source concatenates it. -/
def qr_content (ld : LabelData) (today status : Str) : Str :=
  str "Serial: " ++ ld.serial_number.getD NA ++ [nlChar] ++
  str "Model: " ++ ld.model_number.getD NA ++ [nlChar] ++
  str "Date: " ++ today ++ [nlChar] ++
  str "Status: " ++ status ++ [nlChar] ++
  str "FW: " ++ ld.firmware_version.getD NA ++ [nlChar] ++
  str "First Failed Test: " ++ ld.first_failed_test.getD (str "None")

/-- The six QR payload lines, in the fixed order of the source. -/
def qr_lines (ld : LabelData) (today status : Str) : List Str :=
  [str "Serial: " ++ ld.serial_number.getD NA,
   str "Model: " ++ ld.model_number.getD NA,
   str "Date: " ++ today,
   str "Status: " ++ status,
   str "FW: " ++ ld.firmware_version.getD NA,
   str "First Failed Test: " ++ ld.first_failed_test.getD (str "None")]

theorem qr_content_eq_intercalate (ld : LabelData) (today status : Str) :
    qr_content ld today status = List.intercalate [nlChar] (qr_lines ld today status) := by
  simp [qr_content, qr_lines, intercalate_cons_cons, intercalate_single]

/-! ## The XML document model (lxml element trees) -/

/-- An XML element: tag, optional text content, child elements.  Attributes
and tail text play no role in any behaviour under verification. -/
inductive Elem where
  | mk (tag : Str) (text : Option Str) (children : List Elem)

def Elem.tag : Elem → Str
  | .mk t _ _ => t

def Elem.text : Elem → Option Str
  | .mk _ x _ => x

def Elem.children : Elem → List Elem
  | .mk _ _ cs => cs

mutual

/-- An element in document order together with all elements below it. -/
def subtreeElems : Elem → List Elem
  | .mk tag txt cs => .mk tag txt cs :: subtreeList cs

/-- The subtrees of a list of sibling elements, in document order. -/
def subtreeList : List Elem → List Elem
  | [] => []
  | e :: es => subtreeElems e ++ subtreeList es

end

/-- All elements strictly below `e`, in document order: the semantics of
ElementTree `e.findall(".//...")` iteration domain. -/
def Elem.descendants (e : Elem) : List Elem :=
  subtreeList e.children

/-- `e.findall(".//" + t)`: every descendant element whose tag is `t`. -/
def findall_tag (e : Elem) (t : Str) : List Elem :=
  e.descendants.filter (fun d => d.tag == t)

/-- `e.findtext(t)`: text of the first direct child tagged `t`; `none` when no
such child exists; the empty string when the child has no text. -/
def findtext (e : Elem) (t : Str) : Option Str :=
  match e.children.find? (fun c => c.tag == t) with
  | none => none
  | some c => some (c.text.getD [])

/-- Whether an element with the given tag, immediate parent tag and
grandparent tag is matched by `//QRCodeObject/Data/DataString` or
`//QRCodeObject/TextDataHolder/Value` (plugin.py lines 173-174). -/
def isQRTarget (gparent parent : Option Str) (tag : Str) : Bool :=
  (gparent == some (str "QRCodeObject") && parent == some (str "Data")
      && tag == str "DataString") ||
  (gparent == some (str "QRCodeObject") && parent == some (str "TextDataHolder")
      && tag == str "Value")

mutual

/-- Overwrite the text of every QR target node below the current position,
which has parent tag `parent` and grandparent tag `gparent` (plugin.py
lines 176-177: `elem.text = qr_content` over both xpath node lists). -/
def updateNode (c : Str) (gparent parent : Option Str) : Elem → Elem
  | .mk tag txt cs =>
    .mk tag (if isQRTarget gparent parent tag then some c else txt)
      (updateList c parent tag cs)

/-- `updateNode` mapped over sibling elements whose parent has tag `ptag`
and grandparent tag `gparent`. -/
def updateList (c : Str) (gparent : Option Str) (ptag : Str) : List Elem → List Elem
  | [] => []
  | e :: es => updateNode c gparent (some ptag) e :: updateList c gparent ptag es

end

mutual

/-- Number of QR target nodes below the current position. -/
def countQR (gparent parent : Option Str) : Elem → Nat
  | .mk tag _ cs =>
    (if isQRTarget gparent parent tag then 1 else 0) + countList parent tag cs

/-- `countQR` summed over sibling elements. -/
def countList (gparent : Option Str) (ptag : Str) : List Elem → Nat
  | [] => 0
  | e :: es => countQR gparent (some ptag) e + countList gparent ptag es

end

/-- The whole QR update applied to the document root. -/
def updateQR (c : Str) (e : Elem) : Elem := updateNode c none none e

/-- Number of QR target nodes in the whole document. -/
def countQRTargets (e : Elem) : Nat := countQR none none e

mutual

/-- `etree.tostring`: serialize the element tree back to markup text. -/
def serialize : Elem → Str
  | .mk tag txt cs =>
    [Char.ofNat 60] ++ tag ++ [Char.ofNat 62] ++ txt.getD [] ++
      serializeList cs ++ [Char.ofNat 60, Char.ofNat 47] ++ tag ++ [Char.ofNat 62]

/-- Serialization of a list of sibling elements. -/
def serializeList : List Elem → Str
  | [] => []
  | e :: es => serialize e ++ serializeList es

end

/-! ## Printer Directory Client (plugin.py lines 203-233) -/

/-- A printer record as built by `get_printers`: the `Name` child text (which
may be absent) and the parsed `IsConnected` flag. -/
structure PrinterRec where
  Name : Option Str
  IsConnected : Bool
deriving DecidableEq

/-- Outcome of an HTTP GET including `raise_for_status`: `fail` covers both
transport errors and non-success status codes (`requests.RequestException`). -/
inductive HttpGetOutcome where
  | fail (msg : Str)
  | ok (content : Str)

/-- Outcome of reading the bundled template asset. -/
inductive ReadOutcome where
  | notFound
  | fail (msg : Str)
  | ok (text : Str)

/-- Outcome of the HTTP POST to the print endpoint including
`raise_for_status`. -/
inductive PostOutcome where
  | fail (msg : Str)
  | ok

/-- The form-encoded body posted to `PrintLabel`. -/
structure PostData where
  printerName : Str
  labelXml : Str
  labelSetXml : Str

/-- The external world: HTTP endpoints, the XML parser outcome (`none` models
`etree.XMLSyntaxError`), the template asset, and the current date. -/
structure Env where
  httpGet : Str → HttpGetOutcome
  parseXml : Str → Option Elem
  readTemplate : ReadOutcome
  today : Str
  httpPost : Str → PostData → PostOutcome

def DYMO_PATH : Str := str "DYMO/DLS/Printing"

def DYMO_PRINT_LABEL : Str := DYMO_PATH ++ str "/PrintLabel"

def DYMO_GET_PRINTERS : Str := DYMO_PATH ++ str "/GetPrinters"

/-- The hard-coded target printer name (plugin.py line 59). -/
def printer_name : Str := str "DYMO LabelWriter 4XL"

/-- `get_printers` (plugin.py lines 211-233): GET the printer directory, parse
the XML, and build one record per `LabelWriterPrinter` element; on any
`RequestException` or `XMLSyntaxError` log and return the empty list. -/
def get_printers (env : Env) (dymo_url : Str) : List PrinterRec :=
  match env.httpGet (dymo_url ++ DYMO_GET_PRINTERS) with
  | .fail _ => []
  | .ok content =>
    match env.parseXml content with
    | none => []
    | some root =>
      (findall_tag root (str "LabelWriterPrinter")).map (fun p =>
        { Name := findtext p (str "Name"),
          IsConnected := findtext p (str "IsConnected") == some (str "True") })

/-- The scan loop of `get_printer_connected` (plugin.py lines 205-209):
return the first record whose `Name` equals the target exactly, else false. -/
def scanConnected : List PrinterRec → Str → Bool
  | [], _ => false
  | p :: ps, name => if p.Name == some name then p.IsConnected else scanConnected ps name

/-- `get_printer_connected` (plugin.py lines 203-209). -/
def get_printer_connected (env : Env) (dymo_url pname : Str) : Bool :=
  scanConnected (get_printers env dymo_url) pname

/-! ## The Run Pipeline: `pytest_sessionfinish` (plugin.py lines 56-201) -/

/-- Externally visible events of one pipeline run, in order: the directory
GET, each XML parse attempt, the template asset read, and the print POST
carrying the rendered label. -/
inductive Event where
  | netGet
  | parse (s : Str)
  | readTpl
  | netPost (labelXml : Str)
deriving DecidableEq

/-- Terminal state of a run: every early `return` on an unmet guard is
`skipped`; every `return` after appending an error record is `failed`. -/
inductive Status where
  | skipped
  | failed
  | done
deriving DecidableEq

/-- An entry of `session.plugin_errors`. -/
structure ErrorRecord where
  plugin : Str
  error : Str
deriving DecidableEq

/-- The `__name__` of the plugin module. -/
def PLUGIN_NAME : Str := str "pytest_dymo_label.plugin"

def mkErr (m : Str) : ErrorRecord := ⟨PLUGIN_NAME, m⟩

/-- Result of one `pytest_sessionfinish` invocation: terminal status, the
error records appended to `session.plugin_errors`, and the event trace. -/
structure RunResult where
  status : Status
  errors : List ErrorRecord
  trace : List Event
deriving DecidableEq

def notConnectedMsg : Str :=
  str "The printer " ++ [chQuote] ++ printer_name ++ [chQuote] ++ str " is not connected."

def tplNotFoundMsg : Str :=
  str "Label template " ++ [chQuote] ++ str "manufacturing_label_30334.dymo" ++ [chQuote] ++
    str " not found in the package."

def readErrMsg (m : Str) : Str := str "Error reading label template: " ++ m

def parseErrMsg : Str := str "Failed to parse label XML"

def postErrMsg (m : Str) : Str := str "Failed to print label: " ++ m

/-- The flag names checked for non-test execution modes (plugin.py 77-87). -/
def non_test_flags : List Str :=
  [str "collectonly", str "version", str "help", str "fixtures", str "markers",
   str "trace_config", str "doctest_mods", str "showfixtures", str "runxfail"]

/-- The configuration state the hook reads: URL and enable flag from
`pytest_configure`, the running test status, the option object (a map from
flag name to value, `getattr(config.option, flag, False)`), and whether
`config` carries `workerinput`. -/
structure Config where
  dymo_url : Str
  label_should_print : Bool
  test_status : Str
  option : Str → Bool
  has_workerinput : Bool

/-- The session state the hook reads: the label-data mapping, the number of
collected tests, and the terminal reporter pass/fail counts. -/
structure SessionIn where
  label_data : LabelData
  testscollected : Nat
  num_passed : Nat
  num_failed : Nat

/-- Events of one `get_printers` call: the GET, then the parse of the body
when the GET succeeded. -/
def get_printers_events (env : Env) (dymo_url : Str) : List Event :=
  match env.httpGet (dymo_url ++ DYMO_GET_PRINTERS) with
  | .fail _ => [.netGet]
  | .ok content => [.netGet, .parse content]

/-- The session-finish hook (plugin.py lines 56-201), step for step:
print-enabled guard; connectivity check (appending an error and returning on
a disconnected printer); the five remaining skip guards; template read;
placeholder substitution on the raw text; QR payload construction; the single
XML parse; the structural QR update; serialization; and the POST. -/
def pytest_sessionfinish (env : Env) (config : Config) (session : SessionIn)
    (exitstatus : Nat) : RunResult :=
  if config.label_should_print = false then ⟨.skipped, [], []⟩ else
  let gpev := get_printers_events env config.dymo_url
  let is_connected := get_printer_connected env config.dymo_url printer_name
  if is_connected = false then ⟨.failed, [mkErr notConnectedMsg], gpev⟩
  else if non_test_flags.any config.option then ⟨.skipped, [], gpev⟩
  else if config.has_workerinput then ⟨.skipped, [], gpev⟩
  else if exitstatus ≠ 0 ∧ exitstatus ≠ 1 then ⟨.skipped, [], gpev⟩
  else if session.testscollected = 0 then ⟨.skipped, [], gpev⟩
  else if session.num_failed + session.num_passed = 0 then ⟨.skipped, [], gpev⟩
  else
    match env.readTemplate with
    | .notFound => ⟨.failed, [mkErr tplNotFoundMsg], gpev ++ [.readTpl]⟩
    | .fail m => ⟨.failed, [mkErr (readErrMsg m)], gpev ++ [.readTpl]⟩
    | .ok tpl =>
      let label_xml := substitute_placeholders tpl session.label_data env.today
        config.test_status
      let qr := qr_content session.label_data env.today config.test_status
      match env.parseXml label_xml with
      | none => ⟨.failed, [mkErr parseErrMsg], gpev ++ [.readTpl, .parse label_xml]⟩
      | some root =>
        let out := serialize (updateQR qr root)
        match env.httpPost (config.dymo_url ++ DYMO_PRINT_LABEL)
            ⟨printer_name, out, []⟩ with
        | .ok => ⟨.done, [], gpev ++ [.readTpl, .parse label_xml, .netPost out]⟩
        | .fail m =>
          ⟨.failed, [mkErr (postErrMsg m)],
            gpev ++ [.readTpl, .parse label_xml, .netPost out]⟩

/-! ## Concrete fixtures used by witnesses and counterexamples -/

/-- A `LabelWriterPrinter` element carrying the target name, connected. -/
def printerElem0 : Elem :=
  .mk (str "LabelWriterPrinter") none
    [.mk (str "Name") (some printer_name) [],
     .mk (str "IsConnected") (some (str "True")) []]

def printersRoot0 : Elem := .mk (str "Printers") none [printerElem0]

/-- An environment where every external operation fails. -/
def envAny : Env :=
  { httpGet := fun _ => .fail []
    parseXml := fun _ => none
    readTemplate := .notFound
    today := []
    httpPost := fun _ _ => .fail [] }

/-- An environment whose printer directory reports the target connected. -/
def envConn : Env :=
  { httpGet := fun _ => .ok (str "GP")
    parseXml := fun s => if s = str "GP" then some printersRoot0 else none
    readTemplate := .notFound
    today := []
    httpPost := fun _ _ => .ok }

def cfgOff : Config :=
  { dymo_url := str "u/", label_should_print := false, test_status := str "PASS",
    option := fun _ => false, has_workerinput := false }

/-- Printing enabled, but the harness runs in collect-only mode. -/
def cfgCollect : Config :=
  { dymo_url := str "u/", label_should_print := true, test_status := str "PASS",
    option := fun f => f == str "collectonly", has_workerinput := false }

def sess0 : SessionIn :=
  { label_data := ⟨none, none, none, none⟩, testscollected := 1,
    num_passed := 1, num_failed := 0 }

/-! ## Claim C9 -/

/-- C9: whenever the print-enabled configuration flag is off, the pipeline
invocation terminates as Skipped immediately: no network call, no XML parse,
no template read, and no ErrorRecord appended (empty trace, empty errors). -/
theorem C9_print_disabled (env : Env) (config : Config) (session : SessionIn)
    (exitstatus : Nat) (h : config.label_should_print = false) :
    pytest_sessionfinish env config session exitstatus = ⟨.skipped, [], []⟩ := by
  unfold pytest_sessionfinish
  rw [if_pos h]

/-- Witness for C9 at a concrete disabled configuration. -/
theorem C9_print_disabled_witness :
    pytest_sessionfinish envAny cfgOff sess0 0 = ⟨.skipped, [], []⟩ :=
  C9_print_disabled envAny cfgOff sess0 0 rfl

/-! ## Claim C1 -/

/-- C1 counterexample: with printing enabled, a connected printer, and the
harness in collect-only mode (skip guard 2 unmet), the run does end `skipped`,
but the printer-directory network call and response parse have already
happened — refuting the claim that every guard is evaluated before
`isConnected` and that the first unmet guard skips with no network call. -/
theorem C1_counterexample :
    cfgCollect.option (str "collectonly") = true ∧
    (pytest_sessionfinish envConn cfgCollect sess0 0).status = .skipped ∧
    (pytest_sessionfinish envConn cfgCollect sess0 0).trace =
      [.netGet, .parse (str "GP")] :=
  ⟨rfl, rfl, rfl⟩

/-- C1 amended: only the print-enabled guard precedes the connectivity check;
when it is unmet the run is Skipped with no network call and no ErrorRecord.
The `isConnected` check runs immediately after that guard and before the
remaining five guards, appending one ErrorRecord and failing when the printer
is not connected; only then are the remaining five guards evaluated, and an
unmet one among them ends the run Skipped with no further network call and no
ErrorRecord (the directory call alone is in the trace). -/
theorem C1_amended (env : Env) (config : Config) (session : SessionIn)
    (es : Nat) :
    (config.label_should_print = false →
      pytest_sessionfinish env config session es = ⟨.skipped, [], []⟩) ∧
    (config.label_should_print = true →
      get_printer_connected env config.dymo_url printer_name = false →
      pytest_sessionfinish env config session es =
        ⟨.failed, [mkErr notConnectedMsg], get_printers_events env config.dymo_url⟩) ∧
    (config.label_should_print = true →
      get_printer_connected env config.dymo_url printer_name = true →
      (non_test_flags.any config.option = true ∨ config.has_workerinput = true ∨
        (es ≠ 0 ∧ es ≠ 1) ∨ session.testscollected = 0 ∨
        session.num_failed + session.num_passed = 0) →
      pytest_sessionfinish env config session es =
        ⟨.skipped, [], get_printers_events env config.dymo_url⟩) := by
  refine ⟨fun h => C9_print_disabled env config session es h, fun hp hc => ?_, fun hp hc hg => ?_⟩
  · unfold pytest_sessionfinish
    rw [if_neg (by simp [hp]), if_pos hc]
  · unfold pytest_sessionfinish
    rw [if_neg (by simp [hp]), if_neg (by simp [hc])]
    split
    · rfl
    next h2 =>
    split
    · rfl
    next h3 =>
    split
    · rfl
    next h4 =>
    split
    · rfl
    next h5 =>
    split
    · rfl
    next h6 =>
    exfalso
    rcases hg with hg | hg | hg | hg | hg
    · exact h2 hg
    · exact h3 hg
    · exact h4 hg
    · exact h5 hg
    · exact h6 hg

/-- Witness for C1 amended: skip guard 2 unmet after a successful
connectivity check, at concrete inputs. -/
theorem C1_amended_witness :
    pytest_sessionfinish envConn cfgCollect sess0 0 =
      ⟨.skipped, [], get_printers_events envConn cfgCollect.dymo_url⟩ :=
  (C1_amended envConn cfgCollect sess0 0).2.2 rfl rfl (Or.inl rfl)

/-! ## Claim C8 -/

/-- C8: the pipeline is a total function back to the host (modelled outcomes
cover every failure mode: printer not connected, template missing or
unreadable, parse failure, transport failure, non-success HTTP status);
every failing run appends exactly one ErrorRecord, every non-failing run
appends none. -/
theorem C8_total_one_error_per_failure (env : Env) (config : Config)
    (session : SessionIn) (es : Nat) :
    ((pytest_sessionfinish env config session es).status = .failed ↔
      (pytest_sessionfinish env config session es).errors.length = 1) ∧
    ((pytest_sessionfinish env config session es).status ≠ .failed →
      (pytest_sessionfinish env config session es).errors = []) := by
  unfold pytest_sessionfinish
  dsimp only
  split_ifs <;>
    first
      | (split <;>
          first
            | (split <;>
                first
                  | (split <;> simp)
                  | simp)
            | simp)
      | simp

/-- Witness for C8 at a concrete failing environment (transport failure on
the printer directory, hence not connected). -/
theorem C8_witness :
    (pytest_sessionfinish envAny cfgCollect sess0 0).status = .failed ↔
      (pytest_sessionfinish envAny cfgCollect sess0 0).errors.length = 1 :=
  (C8_total_one_error_per_failure envAny cfgCollect sess0 0).1

/-! ## Claims C3, C4, C10 -/

theorem scanConnected_eq_false (name : Str) :
    ∀ ps : List PrinterRec, (∀ p ∈ ps, p.Name ≠ some name) →
      scanConnected ps name = false := by
  intro ps
  induction ps with
  | nil => intro _; rfl
  | cons p ps ih =>
    intro h
    rw [scanConnected, if_neg]
    · exact ih fun q hq => h q (List.mem_cons_of_mem _ hq)
    · simp [h p (List.mem_cons_self _ _)]

theorem scanConnected_eq_find (name : Str) :
    ∀ (ps : List PrinterRec) (p : PrinterRec),
      ps.find? (fun q => q.Name == some name) = some p →
      scanConnected ps name = p.IsConnected := by
  intro ps
  induction ps with
  | nil => intro p h; simp [List.find?] at h
  | cons q ps ih =>
    intro p h
    cases hq : q.Name == some name with
    | true =>
      rw [List.find?_cons_of_pos ps hq] at h
      cases h
      simp [scanConnected, hq]
    | false =>
      rw [List.find?_cons_of_neg ps (by simp [hq])] at h
      simp only [scanConnected, hq, Bool.false_eq_true, if_false]
      exact ih p h

/-- C3: `get_printers` never fails its caller: on a transport error or
non-success status it returns the empty list, on a response that fails to
parse it returns the empty list, and on success it returns exactly one
record per `LabelWriterPrinter` element of the response document. -/
theorem C3_get_printers_never_fails (env : Env) (dymo_url : Str) :
    (∀ m, env.httpGet (dymo_url ++ DYMO_GET_PRINTERS) = .fail m →
      get_printers env dymo_url = []) ∧
    (∀ content, env.httpGet (dymo_url ++ DYMO_GET_PRINTERS) = .ok content →
      env.parseXml content = none → get_printers env dymo_url = []) ∧
    (∀ content root, env.httpGet (dymo_url ++ DYMO_GET_PRINTERS) = .ok content →
      env.parseXml content = some root →
      get_printers env dymo_url =
        (findall_tag root (str "LabelWriterPrinter")).map (fun p =>
          { Name := findtext p (str "Name"),
            IsConnected := findtext p (str "IsConnected") == some (str "True") }) ∧
      (get_printers env dymo_url).length =
        (findall_tag root (str "LabelWriterPrinter")).length) := by
  refine ⟨fun m hm => ?_, fun c hc hp => ?_, fun c root hc hp => ⟨?_, ?_⟩⟩
  · simp [get_printers, hm]
  · simp [get_printers, hc, hp]
  · simp [get_printers, hc, hp]
  · simp [get_printers, hc, hp]

/-- Witness for C3: a concrete transport failure yields the empty list. -/
theorem C3_witness : get_printers envAny (str "u/") = [] :=
  (C3_get_printers_never_fails envAny (str "u/")).1 [] rfl

/-- C4: `get_printer_connected` is the linear scan `scanConnected` over the
`get_printers` result with case-sensitive exact equality on names: it is
false on the empty list and whenever no record carries the target name, and
when a record named `name` exists it returns the `IsConnected` of the first
such record (the one `find?` locates). -/
theorem C4_isConnected (env : Env) (url name : Str) :
    get_printer_connected env url name = scanConnected (get_printers env url) name ∧
    (get_printers env url = [] → get_printer_connected env url name = false) ∧
    ((∀ p ∈ get_printers env url, p.Name ≠ some name) →
      get_printer_connected env url name = false) ∧
    (∀ p, (get_printers env url).find? (fun q => q.Name == some name) = some p →
      get_printer_connected env url name = p.IsConnected) := by
  refine ⟨rfl, fun h => ?_, fun h => ?_, fun p h => ?_⟩
  · rw [get_printer_connected, h]
    rfl
  · exact scanConnected_eq_false name _ h
  · exact scanConnected_eq_find name _ p h

/-- Witness for C4: the empty directory yields `false` for any name. -/
theorem C4_witness : get_printer_connected envAny (str "u/") (str "X") = false :=
  (C4_isConnected envAny (str "u/") (str "X")).2.1
    ((C3_get_printers_never_fails envAny (str "u/")).1 [] rfl)

/-- C10: when several records carry the target name, the scan in
`get_printer_connected` returns the `IsConnected` of the first one in list
order; any later record with the same name is never consulted. -/
theorem C10_first_match_wins (pre mid post : List PrinterRec)
    (p q : PrinterRec) (name : Str)
    (hpre : ∀ r ∈ pre, r.Name ≠ some name)
    (hp : p.Name = some name) (hq : q.Name = some name) :
    scanConnected (pre ++ p :: (mid ++ q :: post)) name = p.IsConnected := by
  induction pre with
  | nil =>
    rw [List.nil_append, scanConnected, if_pos (by simp [hp])]
  | cons r pre ih =>
    rw [List.cons_append, scanConnected,
      if_neg (by simp [hpre r (List.mem_cons_self _ _)])]
    exact ih fun x hx => hpre x (List.mem_cons_of_mem _ hx)

/-- Witness for C10: a first record reporting disconnected wins over a later
connected record of the same name. -/
theorem C10_witness :
    scanConnected [⟨some (str "X"), false⟩, ⟨some (str "X"), true⟩] (str "X") = false :=
  C10_first_match_wins [] [] [] ⟨some (str "X"), false⟩ ⟨some (str "X"), true⟩
    (str "X") (by simp) rfl rfl

/-! ## Claim C5 -/

/-- C5: for every run summary (any subset of serial, model, firmware, and
first-failed-test absent), the QR payload splits on the newline character
into exactly the six lines Serial, Model, Date, Status, FW, First Failed
Test in that fixed order, with `N/A` for each absent metadata field and
`None` for the first failed test (provided, as in every actual run, that no
substituted value itself contains a newline). -/
theorem C5_qr_payload_six_lines (ld : LabelData) (today status : Str)
    (h1 : nlChar ∉ ld.serial_number.getD NA)
    (h2 : nlChar ∉ ld.model_number.getD NA)
    (h3 : nlChar ∉ today) (h4 : nlChar ∉ status)
    (h5 : nlChar ∉ ld.firmware_version.getD NA)
    (h6 : nlChar ∉ ld.first_failed_test.getD (str "None")) :
    (qr_content ld today status).splitOn nlChar = qr_lines ld today status ∧
    ((qr_content ld today status).splitOn nlChar).length = 6 := by
  have hx : ∀ l ∈ qr_lines ld today status, nlChar ∉ l := by
    intro l hl
    simp only [qr_lines, List.mem_cons, List.not_mem_nil, or_false] at hl
    rcases hl with rfl | rfl | rfl | rfl | rfl | rfl
    · exact fun hm => (List.mem_append.mp hm).elim (by decide) h1
    · exact fun hm => (List.mem_append.mp hm).elim (by decide) h2
    · exact fun hm => (List.mem_append.mp hm).elim (by decide) h3
    · exact fun hm => (List.mem_append.mp hm).elim (by decide) h4
    · exact fun hm => (List.mem_append.mp hm).elim (by decide) h5
    · exact fun hm => (List.mem_append.mp hm).elim (by decide) h6
  have hmain : (qr_content ld today status).splitOn nlChar = qr_lines ld today status := by
    rw [qr_content_eq_intercalate]
    exact List.splitOn_intercalate _ nlChar hx (by simp [qr_lines])
  exact ⟨hmain, by rw [hmain]; rfl⟩

/-- Witness for C5: serial, firmware and first-failed absent, model present. -/
theorem C5_witness :
    (qr_content ⟨none, some (str "M2"), none, none⟩ (str "2026-10-12")
        (str "PASS")).splitOn nlChar =
      [str "Serial: N/A", str "Model: M2", str "Date: 2026-10-12",
       str "Status: PASS", str "FW: N/A", str "First Failed Test: None"] :=
  ((C5_qr_payload_six_lines ⟨none, some (str "M2"), none, none⟩
      (str "2026-10-12") (str "PASS") (by decide) (by decide) (by decide)
      (by decide) (by decide) (by decide)).1).trans (by decide)

/-! ## Claim C6 -/

/-- C6: placeholder substitution is the sequential literal find-and-replace
of the six tokens with the values of `placeholderMap` (absent metadata
fields contributing `N/A`, present ones their literal value); each single
replacement step replaces every leftmost non-overlapping occurrence of its
token (the `splitSub` characterization); and a token that does not occur in
the template is a no-op, never an error. -/
theorem C6_placeholder_substitution (ld : LabelData) (today status t : Str) :
    substitute_placeholders t ld today status =
      List.foldl (fun u p => replaceAll p.1 p.2 u) t (placeholderMap ld today status) ∧
    (∀ old new s : Str, old ≠ [] →
      s = List.intercalate old (splitSub old s) ∧
      replaceAll old new s = List.intercalate new (splitSub old s) ∧
      ∀ p ∈ splitSub old s, subFound old p = false) ∧
    ((∀ tok ∈ placeholderTokens, subFound tok t = false) →
      substitute_placeholders t ld today status = t) ∧
    (placeholderMap ld today status).map Prod.snd =
      [ld.serial_number.getD NA, ld.model_number.getD NA,
       ld.firmware_version.getD NA, today, status, ld.serial_number.getD NA] ∧
    (∀ v : Str, (some v : Option Str).getD NA = v) ∧
    ((none : Option Str).getD NA = NA) := by
  refine ⟨rfl, fun old new s h => ⟨(intercalate_splitSub old h s).symm,
    replaceAll_eq_intercalate_splitSub old new s,
    splitSub_pieces_free old h s⟩, fun hno => ?_, rfl, fun v => rfl, rfl⟩
  simp only [substitute_placeholders]
  rw [replaceAll_of_not_subFound _ _ (by decide) t
      (hno tokSerialNumber (by simp [placeholderTokens])),
    replaceAll_of_not_subFound _ _ (by decide) t
      (hno tokModelNumber (by simp [placeholderTokens])),
    replaceAll_of_not_subFound _ _ (by decide) t
      (hno tokFirmwareVersion (by simp [placeholderTokens])),
    replaceAll_of_not_subFound _ _ (by decide) t
      (hno tokManufacturingDate (by simp [placeholderTokens])),
    replaceAll_of_not_subFound _ _ (by decide) t
      (hno tokTestStatus (by simp [placeholderTokens])),
    replaceAll_of_not_subFound _ _ (by decide) t
      (hno tokBarcodeSN (by simp [placeholderTokens]))]

/-- Witness for C6: a template with no placeholder tokens is unchanged. -/
theorem C6_witness :
    substitute_placeholders (str "<Label/>") ⟨none, none, none, none⟩
      (str "2026-10-12") (str "PASS") = str "<Label/>" :=
  (C6_placeholder_substitution ⟨none, none, none, none⟩ (str "2026-10-12")
      (str "PASS") (str "<Label/>")).2.2.1 (by decide)

/-! ## Claims C2 and C7 -/

/-- Behaviour of the hook once every skip guard and the connectivity check
have passed and the template has been read: substitution on the raw text,
a single parse of the substituted text, the QR update, and the POST. -/
theorem sessionfinish_past_guards (env : Env) (config : Config)
    (session : SessionIn) (es : Nat) (tpl : Str)
    (h1 : config.label_should_print = true)
    (h2 : get_printer_connected env config.dymo_url printer_name = true)
    (h3 : non_test_flags.any config.option = false)
    (h4 : config.has_workerinput = false)
    (h5 : es = 0 ∨ es = 1)
    (h6 : session.testscollected ≠ 0)
    (h7 : session.num_failed + session.num_passed ≠ 0)
    (h8 : env.readTemplate = .ok tpl) :
    pytest_sessionfinish env config session es =
      match env.parseXml (substitute_placeholders tpl session.label_data
          env.today config.test_status) with
      | none =>
        ⟨.failed, [mkErr parseErrMsg],
          get_printers_events env config.dymo_url ++
            [.readTpl, .parse (substitute_placeholders tpl session.label_data
              env.today config.test_status)]⟩
      | some root =>
        match env.httpPost (config.dymo_url ++ DYMO_PRINT_LABEL)
            ⟨printer_name,
             serialize (updateQR (qr_content session.label_data env.today
               config.test_status) root), []⟩ with
        | .ok =>
          ⟨.done, [],
            get_printers_events env config.dymo_url ++
              [.readTpl, .parse (substitute_placeholders tpl session.label_data
                env.today config.test_status),
               .netPost (serialize (updateQR (qr_content session.label_data
                 env.today config.test_status) root))]⟩
        | .fail m =>
          ⟨.failed, [mkErr (postErrMsg m)],
            get_printers_events env config.dymo_url ++
              [.readTpl, .parse (substitute_placeholders tpl session.label_data
                env.today config.test_status),
               .netPost (serialize (updateQR (qr_content session.label_data
                 env.today config.test_status) root))]⟩ := by
  unfold pytest_sessionfinish
  rw [if_neg (by simp [h1]), if_neg (by simp [h2]), if_neg (by simp [h3]),
    if_neg (by simp [h4]), if_neg (by rcases h5 with rfl | rfl <;> simp),
    if_neg h6, if_neg h7, h8]

/-- A raw template that does not parse (the parser oracle rejects it), but
whose placeholder-substituted text does parse. -/
def tpl2 : Str := str "<R>[TestStatus]"

def root2 : Elem := .mk (str "R") (some (str "PASS")) []

/-- A full environment: printer directory reachable and connected, template
readable, the substituted text parseable, the raw template not, POST ok. -/
def env2 : Env :=
  { httpGet := fun _ => .ok (str "GP")
    parseXml := fun s =>
      if s = str "GP" then some printersRoot0
      else if s = substitute_placeholders tpl2 ⟨none, none, none, none⟩
          (str "2026-10-12") (str "PASS") then some root2
      else none
    readTemplate := .ok tpl2
    today := str "2026-10-12"
    httpPost := fun _ _ => .ok }

def cfgRun : Config :=
  { dymo_url := str "u/", label_should_print := true, test_status := str "PASS",
    option := fun _ => false, has_workerinput := false }

/-- C2 counterexample: the raw template does not parse as structured markup
(`env2.parseXml tpl2 = none`), so the claimed initial parse would have to
fail with `RenderError(kind=Malformed)`; yet the run completes with status
`done` and an empty error log, because the code substitutes placeholders
into the raw text first and parses only the substituted text. -/
theorem C2_counterexample :
    env2.parseXml tpl2 = none ∧
    env2.readTemplate = .ok tpl2 ∧
    (pytest_sessionfinish env2 cfgRun sess0 0).status = .done ∧
    (pytest_sessionfinish env2 cfgRun sess0 0).errors = [] :=
  ⟨rfl, rfl, rfl, rfl⟩

/-- C2 amended: rendering substitutes the six placeholders into the raw
template text first and then parses once: the run fails with the
parse-error record exactly when the substituted text fails to parse, and
otherwise the structural QR update is applied to that single parse result
and the serialized outcome is posted; the only render-phase parse event is
of the substituted text (there is no initial parse of the raw template). -/
theorem C2_amended (env : Env) (config : Config) (session : SessionIn)
    (es : Nat) (tpl : Str)
    (h1 : config.label_should_print = true)
    (h2 : get_printer_connected env config.dymo_url printer_name = true)
    (h3 : non_test_flags.any config.option = false)
    (h4 : config.has_workerinput = false)
    (h5 : es = 0 ∨ es = 1)
    (h6 : session.testscollected ≠ 0)
    (h7 : session.num_failed + session.num_passed ≠ 0)
    (h8 : env.readTemplate = .ok tpl) :
    (env.parseXml (substitute_placeholders tpl session.label_data env.today
        config.test_status) = none →
      pytest_sessionfinish env config session es =
        ⟨.failed, [mkErr parseErrMsg],
          get_printers_events env config.dymo_url ++
            [.readTpl, .parse (substitute_placeholders tpl session.label_data
              env.today config.test_status)]⟩) ∧
    (∀ root, env.parseXml (substitute_placeholders tpl session.label_data
        env.today config.test_status) = some root →
      (pytest_sessionfinish env config session es).trace =
        get_printers_events env config.dymo_url ++
          [.readTpl, .parse (substitute_placeholders tpl session.label_data
            env.today config.test_status),
           .netPost (serialize (updateQR (qr_content session.label_data
             env.today config.test_status) root))]) := by
  rw [sessionfinish_past_guards env config session es tpl h1 h2 h3 h4 h5 h6 h7 h8]
  constructor
  · intro hp
    rw [hp]
  · intro root hr
    rw [hr]
    dsimp only
    cases env.httpPost (config.dymo_url ++ DYMO_PRINT_LABEL)
        ⟨printer_name,
         serialize (updateQR (qr_content session.label_data env.today
           config.test_status) root), []⟩ with
    | ok => rfl
    | fail m => rfl

/-- Witness for C2 amended at the concrete environment `env2`. -/
theorem C2_amended_witness :
    (pytest_sessionfinish env2 cfgRun sess0 0).trace =
      get_printers_events env2 cfgRun.dymo_url ++
        [.readTpl, .parse (substitute_placeholders tpl2 sess0.label_data
          env2.today cfgRun.test_status),
         .netPost (serialize (updateQR (qr_content sess0.label_data env2.today
           cfgRun.test_status) root2))] :=
  (C2_amended env2 cfgRun sess0 0 tpl2 rfl rfl rfl rfl (Or.inl rfl)
      (by decide) (by decide) rfl).2 root2 rfl

mutual

theorem updateNode_id (c : Str) (gp p : Option Str) (e : Elem)
    (h : countQR gp p e = 0) : updateNode c gp p e = e := by
  cases e with
  | mk tag txt cs =>
    rw [countQR] at h
    by_cases hq : isQRTarget gp p tag = true
    · rw [if_pos hq] at h
      omega
    · rw [updateNode, if_neg hq, updateList_id c p tag cs (by
        rw [if_neg hq] at h
        omega)]

theorem updateList_id (c : Str) (gp : Option Str) (ptag : Str) (cs : List Elem)
    (h : countList gp ptag cs = 0) : updateList c gp ptag cs = cs := by
  cases cs with
  | nil => rfl
  | cons e es =>
    rw [countList] at h
    rw [updateList, updateNode_id c gp (some ptag) e (by omega),
      updateList_id c gp ptag es (by omega)]

end

/-- A small document with no QR target nodes. -/
def elemNoQR : Elem :=
  .mk (str "Label") none
    [.mk (str "Text") (some (str "hello")) [],
     .mk (str "BarcodeObject") (some (str "SN")) []]

/-- C7: on a document with zero QR data-string and display-value nodes the
QR update alters no node (it is the identity), the serialized output text is
unchanged, and rendering still succeeds: once such a document is the result
of the single parse, the run proceeds to the POST of the unchanged
serialization and appends no error record at the rendering stage. -/
theorem C7_zero_qr_nodes (c : Str) (e : Elem) (h : countQRTargets e = 0) :
    updateQR c e = e ∧
    serialize (updateQR c e) = serialize e ∧
    (∀ (env : Env) (config : Config) (session : SessionIn) (es : Nat) (tpl : Str),
      config.label_should_print = true →
      get_printer_connected env config.dymo_url printer_name = true →
      non_test_flags.any config.option = false →
      config.has_workerinput = false →
      es = 0 ∨ es = 1 →
      session.testscollected ≠ 0 →
      session.num_failed + session.num_passed ≠ 0 →
      env.readTemplate = .ok tpl →
      env.parseXml (substitute_placeholders tpl session.label_data env.today
        config.test_status) = some e →
      (pytest_sessionfinish env config session es).trace =
        get_printers_events env config.dymo_url ++
          [.readTpl, .parse (substitute_placeholders tpl session.label_data
            env.today config.test_status), .netPost (serialize e)]) := by
  have hid : updateQR c e = e := updateNode_id c none none e h
  refine ⟨hid, by rw [hid], ?_⟩
  intro env config session es tpl h1 h2 h3 h4 h5 h6 h7 h8 h9
  have := (C2_amended env config session es tpl h1 h2 h3 h4 h5 h6 h7 h8).2 e h9
  rw [this, show updateQR (qr_content session.label_data env.today
      config.test_status) e = e from
    updateNode_id (qr_content session.label_data env.today config.test_status)
      none none e h]

/-- Witness for C7: the QR update leaves a concrete QR-free document intact. -/
theorem C7_witness : updateQR (str "QRDATA") elemNoQR = elemNoQR :=
  (C7_zero_qr_nodes (str "QRDATA") elemNoQR rfl).1
